import Mathlib

/-
Verification of the UVR16xx BL-NET protocol client (src/main.js).

The JavaScript source is shallowly embedded: bytes and 16-bit words are `Nat`
(with explicit masking where the source masks), fallible operations return
`Option`/`Except`, and JavaScript floating-point arithmetic on decoded values
is modelled over `ℚ`.  JavaScript's 32-bit `~x & 0xFFFF` (complement restricted
to 16 bits) is written `x ^^^ 0xFFFF`, which agrees with it for `x ≤ 0xFFFF`,
the only values it is applied to (the operand is `raw12 ||| 0xF000 ≤ 0xFFFF`).
-/

namespace Uvr

/-- Embeds `byte2short` (main.js lines 830-832): `(hi << 8) | (lo & 0xFF)`. -/
def byte2short (lo hi : Nat) : Nat := (hi <<< 8) ||| (lo &&& 0xFF)

/-- Embeds `byte2int` (main.js lines 843-845):
`(byte2short(lo_lo, lo_hi) & 0xFFFF) | (byte2short(hi_lo, hi_hi) << 16)`. -/
def byte2int (lo_lo lo_hi hi_lo hi_hi : Nat) : Nat :=
  ((byte2short lo_lo lo_hi) &&& 0xFFFF) ||| ((byte2short hi_lo hi_hi) <<< 16)

/-- Embeds the sign-resolution block of `startPolling` (main.js lines 94-108):
extract the high byte, test sign bit 7, rebuild the 12-bit magnitude with
`byte2short(lowByte, highByte & 0x0F)`, and on a set sign bit run the
or-`0xF000` / invert (16-bit) / add-1 (masked) / negate sequence. -/
def signResolvedInput (subValue : Nat) : Int :=
  let highByte := subValue >>> 8
  let lowByte := subValue &&& 0xFF
  let signBit := highByte &&& 0x80
  let input0 := byte2short lowByte (highByte &&& 0x0F)
  if signBit ≠ 0 then
    let i1 := input0 ||| 0xF000
    let i2 := i1 ^^^ 0xFFFF
    let i3 := (i2 + 1) &&& 0xFFFF
    let negated : Int := -(i3 : Int)
    negated
  else
    (input0 : Int)

/-- Embeds the unit-scaling step of `startPolling` (main.js lines 109-113):
the value is divided by 10 exactly when the unit bits equal `0x20` (°C). -/
def decodeInputValue (subValue : Nat) : ℚ :=
  let highByte := subValue >>> 8
  let unitBits := highByte &&& 0x70
  let input := signResolvedInput subValue
  if unitBits = 0x20 then (input : ℚ) / 10 else (input : ℚ)

/-- Embeds `determineUnit` (main.js lines 205-222). -/
def determineUnit (unitBits : Nat) : String :=
  if unitBits = 0x00 then "unused"
  else if unitBits = 0x10 then "digital"
  else if unitBits = 0x20 then "°C"
  else if unitBits = 0x30 then "l/h"
  else if unitBits = 0x60 then "W/m²"
  else if unitBits = 0x70 then "°C (room sensor)"
  else "unknown"

/-- Embeds the per-input unit derivation of `readSystemConfiguration`
(main.js lines 171-180): `determineUnit((value >> 8) & 0x70)`. -/
def probeUnitFor (value : Nat) : String :=
  determineUnit ((value >>> 8) &&& 0x70)

/-- Modelled from the spec (refinement comparison definition): the closed-form
input decode of spec §4.5 — `raw12` is the low byte plus the low nibble of the
high byte, the value is `raw12` when sign bit 15 is clear and `raw12 - 4096`
when it is set, and is divided by 10 exactly when the unit bits are `0x20`. -/
def specInputValue (w : Nat) : ℚ :=
  let raw12 : Nat := w &&& 0x0FFF
  let signed : Int := if w &&& 0x8000 ≠ 0 then (raw12 : Int) - 4096 else (raw12 : Int)
  if (w >>> 8) &&& 0x70 = 0x20 then (signed : ℚ) / 10 else (signed : ℚ)

-- ### Bit-arithmetic helper lemmas

theorem shiftLeft8_or_byte (a b : Nat) (h : b < 256) : (a <<< 8) ||| b = a * 256 + b := by
  have h1 : a <<< 8 = a * 256 := Nat.shiftLeft_eq a 8
  have h2 : b < 2 ^ 8 := by omega
  have h3 := Nat.mul_add_lt_is_or h2 a
  norm_num at h3
  rw [h1, Nat.mul_comm a 256]
  omega

theorem byte2short_eq (lo hi : Nat) : byte2short lo hi = hi * 256 + lo % 256 := by
  unfold byte2short
  have h1 : lo &&& 0xFF = lo % 256 := Nat.and_pow_two_sub_one_eq_mod lo 8
  rw [h1]
  exact shiftLeft8_or_byte hi (lo % 256) (by omega)

theorem xor_two_pow_sub_one_eq (n : Nat) :
    ∀ x, x < 2 ^ n → x ^^^ (2 ^ n - 1) = 2 ^ n - 1 - x := by
  induction n with
  | zero =>
    intro x hx
    have hx0 : x = 0 := by omega
    subst hx0
    simp
  | succ n ih =>
    intro x hx
    have hp : (2 : Nat) ^ (n + 1) = 2 * 2 ^ n := by rw [Nat.pow_succ, Nat.mul_comm]
    have hpos : 0 < 2 ^ n := Nat.two_pow_pos n
    have hdiv2 : (2 ^ (n + 1) - 1) / 2 = 2 ^ n - 1 := by omega
    have hA : (x ^^^ (2 ^ (n + 1) - 1)) / 2 = (x / 2) ^^^ (2 ^ n - 1) := by
      rw [Nat.xor_div_two, hdiv2]
    have hih : (x / 2) ^^^ (2 ^ n - 1) = 2 ^ n - 1 - x / 2 := ih (x / 2) (by omega)
    have hmod := Nat.xor_mod_two_eq_one (a := x) (b := 2 ^ (n + 1) - 1)
    have hodd : (2 ^ (n + 1) - 1) % 2 = 1 := by omega
    omega

theorem xor_ffff_eq (x : Nat) (h : x < 65536) : x ^^^ 0xFFFF = 65535 - x := by
  have h16 : (2 : Nat) ^ 16 = 65536 := by norm_num
  have h2 := xor_two_pow_sub_one_eq 16 x (by omega)
  norm_num at h2
  omega

theorem or_f000_eq (r : Nat) (h : r < 4096) : r ||| 0xF000 = 61440 + r := by
  have h1 : r < 2 ^ 12 := by omega
  have h2 := Nat.mul_add_lt_is_or h1 15
  norm_num at h2
  rw [Nat.lor_comm]
  omega

/-- The 12-bit magnitude the source rebuilds equals `w % 4096`. -/
theorem input0_eq (w : Nat) :
    byte2short (w &&& 0xFF) ((w >>> 8) &&& 0x0F) = w % 4096 := by
  rw [byte2short_eq]
  have h1 : w &&& 0xFF = w % 256 := Nat.and_pow_two_sub_one_eq_mod w 8
  have h2 : (w >>> 8) &&& 0x0F = (w >>> 8) % 16 := Nat.and_pow_two_sub_one_eq_mod _ 4
  rw [h1, h2]
  omega

/-- The sign-bit test of the source (`(w >> 8) & 0x80`) is bit 15 of the word. -/
theorem signBit_eq (w : Nat) :
    (w >>> 8) &&& 0x80 = (w.testBit 15).toNat * 128 := by
  have h := Nat.and_two_pow (w >>> 8) 7
  have h2 : Nat.testBit (w >>> 8) 7 = w.testBit 15 := by
    rw [Nat.testBit_shiftRight]
  rw [h2] at h
  simpa using h

/-- The spec-side sign-bit test (`w & 0x8000`) is also bit 15 of the word. -/
theorem specSignBit_eq (w : Nat) :
    w &&& 0x8000 = (w.testBit 15).toNat * 32768 := by
  have h := Nat.and_two_pow w 15
  simpa using h

/-- Closed form of the sign-resolution sequence: value is `w % 4096`, made
negative by subtracting 4096 when bit 15 is set. -/
theorem signResolvedInput_eq (w : Nat) :
    signResolvedInput w =
      if w.testBit 15 then ((w % 4096 : Nat) : Int) - 4096 else ((w % 4096 : Nat) : Int) := by
  simp only [signResolvedInput, input0_eq, signBit_eq]
  rcases hb : w.testBit 15 with _ | _
  · simp [hb]
  · have hlt : w % 4096 < 4096 := Nat.mod_lt _ (by norm_num)
    have h1 : (w % 4096) ||| 0xF000 = 61440 + w % 4096 := or_f000_eq _ hlt
    have h2 : (61440 + w % 4096) ^^^ 0xFFFF = 65535 - (61440 + w % 4096) :=
      xor_ffff_eq _ (by omega)
    have h3 : (65535 - (61440 + w % 4096) + 1) &&& 0xFFFF
        = (65535 - (61440 + w % 4096) + 1) % 65536 := by
      have := Nat.and_pow_two_sub_one_eq_mod (65535 - (61440 + w % 4096) + 1) 16
      simpa using this
    simp only [hb, h1, h2, h3]
    norm_num
    omega

theorem determineUnit_eq_celsius_iff (u : Nat) : determineUnit u = "°C" ↔ u = 0x20 := by
  unfold determineUnit
  split_ifs <;> simp_all

theorem signResolvedInput_bounds (w : Nat) :
    -4096 ≤ signResolvedInput w ∧ signResolvedInput w ≤ 4095 := by
  rw [signResolvedInput_eq]
  have h : w % 4096 < 4096 := Nat.mod_lt _ (by norm_num)
  rcases hb : w.testBit 15 with _ | _ <;> simp [hb] <;> omega

/-- C1: for every 16-bit raw input word, the published value is `raw12` when
sign bit 7 of the high byte is clear and `raw12 - 4096` when it is set (the
or-`0xF000` / invert / add-1 / negate sequence equals this closed form), and
the value is divided by exactly 10 iff the unit bits equal `0x20` (Celsius) —
i.e. the source decode `decodeInputValue` coincides with the spec's closed
form `specInputValue` on every word. -/
theorem input_decode_matches_closed_form (w : Nat) :
    decodeInputValue w = specInputValue w := by
  have h1 : w &&& 0x0FFF = w % 4096 := Nat.and_pow_two_sub_one_eq_mod w 12
  rcases hb : w.testBit 15 with _ | _ <;>
    simp [decodeInputValue, specInputValue, signResolvedInput_eq, specSignBit_eq, h1, hb]

/-- C9: the Unit the probe derives for a raw word (`determineUnit` on bits
4-6 of the high byte) is exactly the Unit the poll's scaling decision
implements: a poll divides by 10 precisely when the probe's unit is `"°C"`,
and both phases extract the unit bits with the same expression, so the same
word decodes identically in either phase. -/
theorem probe_poll_unit_agreement (w : Nat) :
    probeUnitFor w = determineUnit ((w >>> 8) &&& 0x70)
    ∧ decodeInputValue w =
        (if probeUnitFor w = "°C" then ((signResolvedInput w : Int) : ℚ) / 10
         else ((signResolvedInput w : Int) : ℚ)) := by
  refine ⟨rfl, ?_⟩
  have hiff := determineUnit_eq_celsius_iff ((w >>> 8) &&& 0x70)
  simp only [decodeInputValue, probeUnitFor]
  by_cases h : (w >>> 8) &&& 0x70 = 0x20
  · simp [h, determineUnit]
  · simp [h, hiff]

/-- C10: the sign-resolved input value always lies in `[-4096, 4095]`, so a
Celsius-scaled value lies in `[-409.6, 409.5]`, and no published input value
falls outside `[-4096, 4095]`. -/
theorem input_value_range (w : Nat) :
    (-4096 ≤ signResolvedInput w ∧ signResolvedInput w ≤ 4095)
    ∧ (-4096 ≤ decodeInputValue w ∧ decodeInputValue w ≤ 4095)
    ∧ ((w >>> 8) &&& 0x70 = 0x20 →
        -(4096 : ℚ) / 10 ≤ decodeInputValue w ∧ decodeInputValue w ≤ (4095 : ℚ) / 10) := by
  obtain ⟨hlo, hhi⟩ := signResolvedInput_bounds w
  have hqlo : (-4096 : ℚ) ≤ ((signResolvedInput w : Int) : ℚ) := by exact_mod_cast hlo
  have hqhi : ((signResolvedInput w : Int) : ℚ) ≤ 4095 := by exact_mod_cast hhi
  simp only [decodeInputValue]
  by_cases h : (w >>> 8) &&& 0x70 = 0x20 <;> simp [h]
  · refine ⟨⟨hlo, hhi⟩, ⟨by linarith, by linarith⟩, ⟨by linarith, by linarith⟩⟩
  · exact ⟨⟨hlo, hhi⟩, ⟨hqlo, hqhi⟩⟩

/-- Witness for C10 at the concrete Celsius-unit word `0x2000`. -/
theorem input_value_range_instance :
    -(4096 : ℚ) / 10 ≤ decodeInputValue 0x2000 ∧ decodeInputValue 0x2000 ≤ (4095 : ℚ) / 10 :=
  (input_value_range 0x2000).2.2 (by decide)

-- ### The record decoder (`parseUvrRecord`, main.js lines 719-821)

/-- The decoded poll snapshot assembled by `parseUvrRecord`: 13 named outputs,
4 speed levels, the 16 raw input words, the two counter status strings and the
two energy counters. -/
structure UvrRecord where
  A01 : String
  A02 : String
  A03 : String
  A04 : String
  A05 : String
  A06 : String
  A07 : String
  A08 : String
  A09 : String
  A10 : String
  A11 : String
  A12 : String
  A13 : String
  DzA1 : Nat
  DzA2 : Nat
  DzA6 : Nat
  DzA7 : Nat
  inputs : List Nat
  wmz1 : String
  wmz2 : String
  current_heat_power1 : ℚ
  total_heat_energy1 : ℚ
  current_heat_power2 : ℚ
  total_heat_energy2 : ℚ
deriving Repr, DecidableEq

/-- Embeds the per-counter power computation (main.js lines 780-786 and
802-808), shared verbatim by both counters: `hundredths = ll*10/256`,
`power = (10*byte2int(lh,hl,hh,0) + hundredths)/100`, overwritten by the
documented sign-check branch when `hh > 32767`. -/
def heatPower (lowLow lowHigh highLow highHigh : Nat) : ℚ :=
  let hundredths : ℚ := ((lowLow : ℚ) * 10) / 256
  let power : ℚ := (10 * (byte2int lowHigh highLow highHigh 0 : ℚ) + hundredths) / 100
  if highHigh > 32767 then
    (10 * ((byte2int lowHigh highLow highHigh 0 : ℚ) - 65536) - hundredths) / 100
  else power

/-- Embeds the per-counter total-energy computation (main.js lines 789-790 and
811-812): kWh word / 10 plus MWh word * 1000. -/
def totalEnergy (kwhLo kwhHi mwhLo mwhHi : Nat) : ℚ :=
  (byte2short kwhLo kwhHi : ℚ) / 10 + (byte2short mwhLo mwhHi : ℚ) * 1000

/-- Embeds `parseUvrRecord` (main.js lines 719-821).  Out-of-range byte reads
model JavaScript's `undefined`-free `Uint8Array` access on the 57-byte block
the caller guarantees (`getD` default 0 is never hit on valid input). -/
def parseUvrRecord (response : List Nat) : UvrRecord :=
  let r := fun (i : Nat) => response.getD i 0
  let output := byte2short (r 33) (r 34)
  let wmz := r 39
  { A01 := if output &&& 0x01 ≠ 0 then "ON" else "OFF",
    A02 := if output &&& 0x02 ≠ 0 then "ON" else "OFF",
    A03 := if output &&& 0x04 ≠ 0 then "ON" else "OFF",
    A04 := if output &&& 0x08 ≠ 0 then "ON" else "OFF",
    A05 := if output &&& 0x10 ≠ 0 then "ON" else "OFF",
    A06 := if output &&& 0x20 ≠ 0 then "ON" else "OFF",
    A07 := if output &&& 0x40 ≠ 0 then "ON" else "OFF",
    A08 := if output &&& 0x80 ≠ 0 then "ON" else "OFF",
    A09 := if output &&& 0x100 ≠ 0 then "ON" else "OFF",
    A10 := if output &&& 0x200 ≠ 0 then "ON" else "OFF",
    A11 := if output &&& 0x400 ≠ 0 then "ON" else "OFF",
    A12 := if output &&& 0x800 ≠ 0 then "ON" else "OFF",
    A13 := if output &&& 0x1000 ≠ 0 then "ON" else "OFF",
    DzA1 := r 35,
    DzA2 := r 36,
    DzA6 := r 37,
    DzA7 := r 38,
    inputs := (List.range 16).map (fun i => byte2short (r (i * 2 + 1)) (r (i * 2 + 2))),
    wmz1 := if wmz &&& 0x1 ≠ 0 then "active" else "inactive",
    wmz2 := if wmz &&& 0x2 ≠ 0 then "active" else "inactive",
    current_heat_power1 := if wmz &&& 0x1 ≠ 0 then heatPower (r 40) (r 41) (r 42) (r 43) else 0,
    total_heat_energy1 := if wmz &&& 0x1 ≠ 0 then totalEnergy (r 44) (r 45) (r 46) (r 47) else 0,
    current_heat_power2 := if wmz &&& 0x2 ≠ 0 then heatPower (r 48) (r 49) (r 50) (r 51) else 0,
    total_heat_energy2 := if wmz &&& 0x2 ≠ 0 then totalEnergy (r 52) (r 53) (r 54) (r 55) else 0 }

/-- Embeds `readBlock` (main.js lines 679-686): the first `length` bytes when
enough data arrived, otherwise `null`. -/
def readBlock (data : List Nat) (length : Nat) : Option (List Nat) :=
  if data.length ≥ length then some (data.take length) else none

/-- Embeds `fetchStateValuesFromDevice` (main.js lines 634-670) applied to the
block fetched from the device: the decode succeeds only when the leading byte
is `0x80` and `readBlock` yields a 57-byte block; every failure path ends with
no state values (the JavaScript swallows the thrown error and resolves with
`undefined`, modelled as `none`). -/
def fetchStateValuesFromDevice (data : List Nat) : Option UvrRecord :=
  if data.getD 0 0 = 0x80 then
    match readBlock data 57 with
    | some response => some (parseUvrRecord response)
    | none => none
  else none

/-- C2: the poll fetch fails (yields no state values) whenever the leading
byte of the fetched block is not `0x80` or fewer than 57 bytes arrived; when
the leading byte is `0x80` and at least 57 bytes arrive, exactly the first 57
bytes are decoded and trailing bytes are ignored. -/
theorem fetch_state_values_spec (data : List Nat) :
    (data.getD 0 0 ≠ 0x80 → fetchStateValuesFromDevice data = none)
    ∧ (data.length < 57 → fetchStateValuesFromDevice data = none)
    ∧ (data.getD 0 0 = 0x80 → 57 ≤ data.length →
        fetchStateValuesFromDevice data = some (parseUvrRecord (data.take 57))) := by
  unfold fetchStateValuesFromDevice readBlock
  refine ⟨fun h => by rw [if_neg h], fun h => ?_, fun h1 h2 => by rw [if_pos h1, if_pos h2]⟩
  by_cases h0 : data.getD 0 0 = 0x80
  · rw [if_pos h0, if_neg (by omega)]
  · rw [if_neg h0]

/-- Witness for C2: a 58-byte block with leading byte `0x80` decodes to the
record of its first 57 bytes, and a short block yields no state values. -/
theorem fetch_state_values_spec_instance :
    fetchStateValuesFromDevice (0x80 :: List.replicate 57 0)
      = some (parseUvrRecord ((0x80 :: List.replicate 57 0).take 57))
    ∧ fetchStateValuesFromDevice [0x80, 0] = none :=
  ⟨(fetch_state_values_spec (0x80 :: List.replicate 57 0)).2.2 (by decide) (by decide),
   (fetch_state_values_spec [0x80, 0]).2.1 (by decide)⟩

-- ### C5: the spec's synthetic round-trip record

/-- The synthetic 57-byte record of the spec's round-trip scenario: outputs
word `0x0005` at bytes 33-34, speed bytes `[30,14,0,158]` at 35-38, wmz status
byte `0x01` at 39, everything else zero. -/
def c5Record : List Nat :=
  [0x80,
   0, 0, 0, 0, 0, 0, 0, 0, 0, 0, 0, 0, 0, 0, 0, 0,
   0, 0, 0, 0, 0, 0, 0, 0, 0, 0, 0, 0, 0, 0, 0, 0,
   0x05, 0x00,
   30, 14, 0, 158,
   0x01,
   0, 0, 0, 0, 0, 0, 0, 0,
   0, 0, 0, 0, 0, 0, 0, 0]

/-- Counterexample for C5: the claim asserts `DzA2 = 30` for the synthetic
record, but the decoder assigns byte 35 to `DzA1` and byte 36 to `DzA2`, so
`DzA2 = 14`, not 30. -/
theorem c5_dza2_not_thirty : ¬ (parseUvrRecord c5Record).DzA2 = 30 := by decide

/-- C5 (amended): decoding the synthetic record gives outputs word `0x0005`
with bits 0-12 mapped to A01..A13 (A01="ON", A02="OFF", A03="ON", all others
"OFF"); the speed bytes 35-38 `[30,14,0,158]` are assigned verbatim in order,
so `DzA1 = 30`, `DzA2 = 14`, `DzA6 = 0`, `DzA7 = 158`; and wmz status byte
`0x01` yields wmz1 active, wmz2 inactive, with both counter-2 fields 0. -/
theorem c5_round_trip :
    (parseUvrRecord c5Record).A01 = "ON"
    ∧ (parseUvrRecord c5Record).A02 = "OFF"
    ∧ (parseUvrRecord c5Record).A03 = "ON"
    ∧ (parseUvrRecord c5Record).A04 = "OFF"
    ∧ (parseUvrRecord c5Record).A05 = "OFF"
    ∧ (parseUvrRecord c5Record).A06 = "OFF"
    ∧ (parseUvrRecord c5Record).A07 = "OFF"
    ∧ (parseUvrRecord c5Record).A08 = "OFF"
    ∧ (parseUvrRecord c5Record).A09 = "OFF"
    ∧ (parseUvrRecord c5Record).A10 = "OFF"
    ∧ (parseUvrRecord c5Record).A11 = "OFF"
    ∧ (parseUvrRecord c5Record).A12 = "OFF"
    ∧ (parseUvrRecord c5Record).A13 = "OFF"
    ∧ (parseUvrRecord c5Record).DzA1 = 30
    ∧ (parseUvrRecord c5Record).DzA2 = 14
    ∧ (parseUvrRecord c5Record).DzA6 = 0
    ∧ (parseUvrRecord c5Record).DzA7 = 158
    ∧ (parseUvrRecord c5Record).wmz1 = "active"
    ∧ (parseUvrRecord c5Record).wmz2 = "inactive"
    ∧ (parseUvrRecord c5Record).current_heat_power2 = 0
    ∧ (parseUvrRecord c5Record).total_heat_energy2 = 0 := by decide

-- ### C6 and C7: the energy-counter arithmetic

theorem getD_lt_256 {l : List Nat} (h : ∀ b ∈ l, b < 256) (i : Nat) : l.getD i 0 < 256 := by
  rw [List.getD_eq_getElem?_getD]
  rcases hg : l[i]? with _ | a
  · simp
  · have := h a (List.getElem?_mem hg)
    simpa [hg] using this

theorem byte2int_eq (lh hl hh : Nat) (h1 : lh < 256) (h2 : hl < 256) (h3 : hh < 256) :
    byte2int lh hl hh 0 = hh * 65536 + hl * 256 + lh := by
  unfold byte2int
  rw [byte2short_eq lh hl, byte2short_eq hh 0]
  have e1 : hl * 256 + lh % 256 = hl * 256 + lh := by omega
  have e2 : 0 * 256 + hh % 256 = hh := by omega
  rw [e1, e2]
  have e3 : (hl * 256 + lh) &&& 0xFFFF = (hl * 256 + lh) % 65536 :=
    Nat.and_pow_two_sub_one_eq_mod _ 16
  have e4 : (hl * 256 + lh) % 65536 = hl * 256 + lh := Nat.mod_eq_of_lt (by omega)
  rw [e3, e4, Nat.shiftLeft_eq hh 16, show (2 : Nat) ^ 16 = 65536 from by norm_num,
    Nat.mul_comm hh 65536, Nat.lor_comm]
  have e5 : hl * 256 + lh < 2 ^ 16 := by omega
  have e6 := Nat.mul_add_lt_is_or e5 hh
  norm_num at e6
  omega

/-- The claim's or-assembled magnitude agrees with `byte2int` on bytes. -/
theorem magnitude_or_form (lh hl hh : Nat) (h1 : lh < 256) (h2 : hl < 256) (h3 : hh < 256) :
    lh ||| (hl <<< 8) ||| (hh <<< 16) = byte2int lh hl hh 0 := by
  rw [byte2int_eq lh hl hh h1 h2 h3]
  have e1 : lh ||| (hl <<< 8) = hl * 256 + lh := by
    rw [Nat.lor_comm]
    exact shiftLeft8_or_byte hl lh h1
  rw [e1, Nat.shiftLeft_eq hh 16, show (2 : Nat) ^ 16 = 65536 from by norm_num,
    Nat.mul_comm hh 65536, Nat.lor_comm]
  have e5 : hl * 256 + lh < 2 ^ 16 := by omega
  have e6 := Nat.mul_add_lt_is_or e5 hh
  norm_num at e6
  omega

/-- On byte-valued arguments the sign-check branch is skipped and the power is
the plain non-negative formula. -/
theorem heatPower_eq_of_byte (ll lh hl hh : Nat) (h : hh ≤ 32767) :
    heatPower ll lh hl hh
      = (10 * (byte2int lh hl hh 0 : ℚ) + ((ll : ℚ) * 10) / 256) / 100 := by
  unfold heatPower
  rw [if_neg (by omega)]

theorem heatPower_nonneg (ll lh hl hh : Nat) (h : hh ≤ 32767) :
    0 ≤ heatPower ll lh hl hh := by
  rw [heatPower_eq_of_byte ll lh hl hh h]
  positivity

/-- C6: for each active energy counter the current power is
`(10 * magnitude + hundredths) / 100` with `hundredths = ll*10/256` over exact
rational arithmetic and `magnitude = lh ||| (hl <<< 8) ||| (hh <<< 16)`; the
byte pattern `ll=0, lh=100, hl=0, hh=0` gives power exactly 10; an inactive
status bit forces both counter fields to 0. -/
theorem energy_counter_power (response : List Nat) (hb : ∀ b ∈ response, b < 256) :
    ((response.getD 39 0) &&& 0x1 ≠ 0 →
      (parseUvrRecord response).current_heat_power1 =
        (10 * ((response.getD 41 0 ||| (response.getD 42 0 <<< 8)
                ||| (response.getD 43 0 <<< 16) : Nat) : ℚ)
          + ((response.getD 40 0 : ℚ) * 10) / 256) / 100)
    ∧ ((response.getD 39 0) &&& 0x1 = 0 →
        (parseUvrRecord response).current_heat_power1 = 0
        ∧ (parseUvrRecord response).total_heat_energy1 = 0)
    ∧ ((response.getD 39 0) &&& 0x2 ≠ 0 →
      (parseUvrRecord response).current_heat_power2 =
        (10 * ((response.getD 49 0 ||| (response.getD 50 0 <<< 8)
                ||| (response.getD 51 0 <<< 16) : Nat) : ℚ)
          + ((response.getD 48 0 : ℚ) * 10) / 256) / 100)
    ∧ ((response.getD 39 0) &&& 0x2 = 0 →
        (parseUvrRecord response).current_heat_power2 = 0
        ∧ (parseUvrRecord response).total_heat_energy2 = 0)
    ∧ ((response.getD 39 0) &&& 0x1 ≠ 0 → response.getD 40 0 = 0 →
        response.getD 41 0 = 100 → response.getD 42 0 = 0 → response.getD 43 0 = 0 →
        (parseUvrRecord response).current_heat_power1 = 10) := by
  simp only [parseUvrRecord]
  refine ⟨fun h => ?_, fun h => ?_, fun h => ?_, fun h => ?_, fun h h40 h41 h42 h43 => ?_⟩
  · rw [if_pos h, heatPower_eq_of_byte _ _ _ _ (by have := getD_lt_256 hb 43; omega),
      magnitude_or_form _ _ _ (getD_lt_256 hb 41) (getD_lt_256 hb 42) (getD_lt_256 hb 43)]
    push_cast
    ring
  · rw [if_neg (by omega), if_neg (by omega)]
    exact ⟨rfl, rfl⟩
  · rw [if_pos h, heatPower_eq_of_byte _ _ _ _ (by have := getD_lt_256 hb 51; omega),
      magnitude_or_form _ _ _ (getD_lt_256 hb 49) (getD_lt_256 hb 50) (getD_lt_256 hb 51)]
    push_cast
    ring
  · rw [if_neg (by omega), if_neg (by omega)]
    exact ⟨rfl, rfl⟩
  · rw [if_pos h, h40, h41, h42, h43,
      heatPower_eq_of_byte 0 100 0 0 (by norm_num),
      byte2int_eq 100 0 0 (by norm_num) (by norm_num) (by norm_num)]
    norm_num

/-- The synthetic record for the C6 power instance: like `c5Record` but with
counter-1 bytes 40-43 equal to `[0, 100, 0, 0]`. -/
def c6Record : List Nat :=
  [0x80,
   0, 0, 0, 0, 0, 0, 0, 0, 0, 0, 0, 0, 0, 0, 0, 0,
   0, 0, 0, 0, 0, 0, 0, 0, 0, 0, 0, 0, 0, 0, 0, 0,
   0x05, 0x00,
   30, 14, 0, 158,
   0x01,
   0, 100, 0, 0, 0, 0, 0, 0,
   0, 0, 0, 0, 0, 0, 0, 0]

/-- Witness for C6: on `c6Record` (counter 1 active, bytes `[0,100,0,0]`) the
current power is exactly 10, and inactive counter 2 reports 0. -/
theorem energy_counter_power_instance :
    (parseUvrRecord c6Record).current_heat_power1 = 10
    ∧ (parseUvrRecord c6Record).current_heat_power2 = 0
    ∧ (parseUvrRecord c6Record).total_heat_energy2 = 0 :=
  ⟨(energy_counter_power c6Record (by decide)).2.2.2.2 (by decide)
      (by decide) (by decide) (by decide) (by decide),
   (energy_counter_power c6Record (by decide)).2.2.2.1 (by decide)⟩

/-- Spec-side comparison definition: the power computation with the documented
dead sign-check branch (`hh > 32767`) removed. -/
def heatPowerNoSignCheck (lowLow lowHigh highLow highHigh : Nat) : ℚ :=
  let hundredths : ℚ := ((lowLow : ℚ) * 10) / 256
  (10 * (byte2int lowHigh highLow highHigh 0 : ℚ) + hundredths) / 100

/-- Spec-side comparison definition: `parseUvrRecord` with the two
`hh > 32767` sign-check branches deleted. -/
def parseUvrRecordNoSignCheck (response : List Nat) : UvrRecord :=
  let r := fun (i : Nat) => response.getD i 0
  let output := byte2short (r 33) (r 34)
  let wmz := r 39
  { A01 := if output &&& 0x01 ≠ 0 then "ON" else "OFF",
    A02 := if output &&& 0x02 ≠ 0 then "ON" else "OFF",
    A03 := if output &&& 0x04 ≠ 0 then "ON" else "OFF",
    A04 := if output &&& 0x08 ≠ 0 then "ON" else "OFF",
    A05 := if output &&& 0x10 ≠ 0 then "ON" else "OFF",
    A06 := if output &&& 0x20 ≠ 0 then "ON" else "OFF",
    A07 := if output &&& 0x40 ≠ 0 then "ON" else "OFF",
    A08 := if output &&& 0x80 ≠ 0 then "ON" else "OFF",
    A09 := if output &&& 0x100 ≠ 0 then "ON" else "OFF",
    A10 := if output &&& 0x200 ≠ 0 then "ON" else "OFF",
    A11 := if output &&& 0x400 ≠ 0 then "ON" else "OFF",
    A12 := if output &&& 0x800 ≠ 0 then "ON" else "OFF",
    A13 := if output &&& 0x1000 ≠ 0 then "ON" else "OFF",
    DzA1 := r 35,
    DzA2 := r 36,
    DzA6 := r 37,
    DzA7 := r 38,
    inputs := (List.range 16).map (fun i => byte2short (r (i * 2 + 1)) (r (i * 2 + 2))),
    wmz1 := if wmz &&& 0x1 ≠ 0 then "active" else "inactive",
    wmz2 := if wmz &&& 0x2 ≠ 0 then "active" else "inactive",
    current_heat_power1 :=
      if wmz &&& 0x1 ≠ 0 then heatPowerNoSignCheck (r 40) (r 41) (r 42) (r 43) else 0,
    total_heat_energy1 := if wmz &&& 0x1 ≠ 0 then totalEnergy (r 44) (r 45) (r 46) (r 47) else 0,
    current_heat_power2 :=
      if wmz &&& 0x2 ≠ 0 then heatPowerNoSignCheck (r 48) (r 49) (r 50) (r 51) else 0,
    total_heat_energy2 := if wmz &&& 0x2 ≠ 0 then totalEnergy (r 52) (r 53) (r 54) (r 55) else 0 }

/-- C7: for every record whose bytes lie in 0..255, the `hh > 32767`
sign-check branch is unreachable — the decoder coincides with the variant that
deletes the branch — and consequently both computed power values are
non-negative. -/
theorem sign_check_unreachable (response : List Nat) (hb : ∀ b ∈ response, b < 256) :
    parseUvrRecord response = parseUvrRecordNoSignCheck response
    ∧ 0 ≤ (parseUvrRecord response).current_heat_power1
    ∧ 0 ≤ (parseUvrRecord response).current_heat_power2 := by
  have h43 := getD_lt_256 hb 43
  have h51 := getD_lt_256 hb 51
  have e1 : heatPower (response.getD 40 0) (response.getD 41 0)
      (response.getD 42 0) (response.getD 43 0)
      = heatPowerNoSignCheck (response.getD 40 0) (response.getD 41 0)
        (response.getD 42 0) (response.getD 43 0) := by
    unfold heatPower heatPowerNoSignCheck
    rw [if_neg (by omega)]
  have e2 : heatPower (response.getD 48 0) (response.getD 49 0)
      (response.getD 50 0) (response.getD 51 0)
      = heatPowerNoSignCheck (response.getD 48 0) (response.getD 49 0)
        (response.getD 50 0) (response.getD 51 0) := by
    unfold heatPower heatPowerNoSignCheck
    rw [if_neg (by omega)]
  refine ⟨?_, ?_, ?_⟩
  · simp only [parseUvrRecord, parseUvrRecordNoSignCheck]
    rw [e1, e2]
  · simp only [parseUvrRecord]
    split_ifs with h
    · exact heatPower_nonneg _ _ _ _ (by omega)
    · norm_num
  · simp only [parseUvrRecord]
    split_ifs with h
    · exact heatPower_nonneg _ _ _ _ (by omega)
    · norm_num

/-- Witness for C7 on the concrete synthetic record. -/
theorem sign_check_unreachable_instance :
    parseUvrRecord c5Record = parseUvrRecordNoSignCheck c5Record
    ∧ 0 ≤ (parseUvrRecord c5Record).current_heat_power1
    ∧ 0 ≤ (parseUvrRecord c5Record).current_heat_power2 :=
  sign_check_unreachable c5Record (by decide)

-- ### C3: the retrying fetcher (`fetchDataBlockFromDevice`, main.js lines 591-628)

/-- Acceptance test of the retry loop (main.js line 605): a response is
accepted only if data arrived and its length is greater than 1.  `none`
models a `sendCommand` rejection (transport error). -/
def isAccepted (r : Option (List Nat)) : Bool :=
  match r with
  | none => false
  | some d => decide (1 < d.length)

/-- Embeds the `attemptFetch` retry loop (main.js lines 596-623): each
iteration sends the command once (consuming `responses sent`), resolves with
the first response longer than 1 byte, and rejects with the exhaustion error
once `maxRetries` sends have failed.  Returns the outcome together with the
number of sends performed. -/
def attemptFetch (responses : Nat → Option (List Nat)) :
    Nat → Nat → Except String (List Nat) × Nat
  | 0, sent => (Except.error "Max retries reached. Unable to communicate with device.", sent)
  | fuel + 1, sent =>
    match responses sent with
    | some data =>
      if 1 < data.length then (Except.ok data, sent + 1)
      else attemptFetch responses fuel (sent + 1)
    | none => attemptFetch responses fuel (sent + 1)

/-- Embeds `fetchDataBlockFromDevice` (main.js lines 591-628) with
`maxRetries = 5` (line 593). -/
def fetchDataBlockFromDevice (responses : Nat → Option (List Nat)) :
    Except String (List Nat) × Nat :=
  attemptFetch responses 5 0

theorem attemptFetch_all_bad (responses : Nat → Option (List Nat)) :
    ∀ fuel sent, (∀ i, i < fuel → isAccepted (responses (sent + i)) = false) →
      attemptFetch responses fuel sent
        = (Except.error "Max retries reached. Unable to communicate with device.",
           sent + fuel) := by
  intro fuel
  induction fuel with
  | zero => intro sent _; simp [attemptFetch]
  | succ n ih =>
    intro sent h
    have h0 := h 0 (by omega)
    rw [Nat.add_zero] at h0
    have hrec : ∀ i, i < n → isAccepted (responses (sent + 1 + i)) = false := by
      intro i hi
      have := h (i + 1) (by omega)
      rwa [show sent + (i + 1) = sent + 1 + i by omega] at this
    rcases hr : responses sent with _ | d
    · rw [show sent + (n + 1) = sent + 1 + n by omega]
      simp only [attemptFetch, hr]
      exact ih (sent + 1) hrec
    · rw [hr] at h0
      simp only [isAccepted, decide_eq_false_iff_not, Nat.not_lt] at h0
      rw [show sent + (n + 1) = sent + 1 + n by omega]
      simp only [attemptFetch, hr]
      rw [if_neg (by omega)]
      exact ih (sent + 1) hrec

theorem attemptFetch_first_good (responses : Nat → Option (List Nat)) :
    ∀ fuel sent N d, N < fuel →
      (∀ i, i < N → isAccepted (responses (sent + i)) = false) →
      responses (sent + N) = some d → 1 < d.length →
      attemptFetch responses fuel sent = (Except.ok d, sent + N + 1) := by
  intro fuel
  induction fuel with
  | zero => intro sent N d hN; omega
  | succ n ih =>
    intro sent N d hN hbad hgood hlen
    rcases N with _ | m
    · rw [Nat.add_zero] at hgood
      rw [Nat.add_zero]
      simp only [attemptFetch, hgood]
      rw [if_pos hlen]
    · have h0 := hbad 0 (by omega)
      rw [Nat.add_zero] at h0
      have hrec : ∀ i, i < m → isAccepted (responses (sent + 1 + i)) = false := by
        intro i hi
        have := hbad (i + 1) (by omega)
        rwa [show sent + (i + 1) = sent + 1 + i by omega] at this
      have hgood1 : responses (sent + 1 + m) = some d := by
        rwa [show sent + 1 + m = sent + (m + 1) by omega]
      have hres := ih (sent + 1) m d (by omega) hrec hgood1 hlen
      rw [show sent + (m + 1) + 1 = sent + 1 + m + 1 by omega]
      rcases hr : responses sent with _ | e
      · simp only [attemptFetch, hr]
        exact hres
      · rw [hr] at h0
        simp only [isAccepted, decide_eq_false_iff_not, Nat.not_lt] at h0
        simp only [attemptFetch, hr]
        rw [if_neg (by omega)]
        exact hres

/-- C3: given N short or errored responses followed by a valid (longer than
1 byte) response, the retrying fetcher returns that first valid response
unmodified iff N < 5, having sent N+1 commands; after 5 consecutive failures
it fails with the exhaustion error having performed exactly 5 sends — no
6th send happens. -/
theorem retry_fetch_spec (responses : Nat → Option (List Nat)) (N : Nat) (d : List Nat)
    (hbad : ∀ i, i < N → isAccepted (responses i) = false)
    (hgood : responses N = some d) (hlen : 1 < d.length) :
    (N < 5 → fetchDataBlockFromDevice responses = (Except.ok d, N + 1))
    ∧ (5 ≤ N →
        fetchDataBlockFromDevice responses
          = (Except.error "Max retries reached. Unable to communicate with device.", 5)) := by
  constructor
  · intro h5
    have := attemptFetch_first_good responses 5 0 N d h5
      (fun i hi => by simpa using hbad i hi) (by simpa using hgood) hlen
    simpa [fetchDataBlockFromDevice] using this
  · intro h5
    have := attemptFetch_all_bad responses 5 0
      (fun i hi => by simpa using hbad i (by omega))
    simpa [fetchDataBlockFromDevice] using this

/-- Witness for C3: one transport error followed by a 3-byte response makes
the fetcher return that response after exactly 2 sends. -/
theorem retry_fetch_spec_instance :
    fetchDataBlockFromDevice (fun n => if n = 0 then none else some [1, 2, 3])
      = (Except.ok [1, 2, 3], 2) :=
  (retry_fetch_spec (fun n => if n = 0 then none else some [1, 2, 3]) 1 [1, 2, 3]
    (fun i hi => by
      have hi0 : i = 0 := by omega
      subst hi0
      rfl)
    rfl (by norm_num)).1 (by norm_num)

-- ### C4: the device-info header decode (`readDeviceInfo`, main.js lines 446-544)

/-- The mode and type strings `readDeviceInfo` derives from the header block. -/
structure HeaderInfo where
  uvr_mode_str : String
  uvr_type_str : String
  uvr2_type_str : Option String
deriving Repr, DecidableEq

/-- Embeds the type-byte translation of `readDeviceInfo` (main.js lines
517-527): `0x5A → UVR61-3`, `0x76 → UVR1611`, anything else `Unknown`. -/
def uvrTypeToString (uvr_type : Nat) : String :=
  if uvr_type = 0x5A then "UVR61-3"
  else if uvr_type = 0x76 then "UVR1611"
  else "Unknown"

/-- Embeds the header-interpreting portion of `readDeviceInfo` (main.js lines
446-544): the header's length selects the mode (14 bytes → 2DL with type
bytes at offsets 5 and 6, 13 bytes → 1DL with the type byte at offset 5,
21 bytes → CAN, any other length throws the unknown-length error); in CAN
mode the type is overwritten with `0x76` (UVR1611) regardless of contents. -/
def readDeviceInfoHeader (data : List Nat) : Except String HeaderInfo :=
  if data.length = 14 then
    Except.ok { uvr_mode_str := "2DL",
                uvr_type_str := uvrTypeToString (data.getD 5 0),
                uvr2_type_str := some (uvrTypeToString (data.getD 6 0)) }
  else if data.length = 13 then
    Except.ok { uvr_mode_str := "1DL",
                uvr_type_str := uvrTypeToString (data.getD 5 0),
                uvr2_type_str := none }
  else if data.length = 21 then
    Except.ok { uvr_mode_str := "CAN",
                uvr_type_str := uvrTypeToString 0x76,
                uvr2_type_str := none }
  else
    Except.error ("Unknown data length: " ++ toString data.length)

/-- C4: header length 13 yields mode 1DL with the primary type byte at offset
5; 14 yields 2DL with types at offsets 5 and 6; 21 yields CAN with the
primary type forced to UVR1611 regardless of the header's contents; any other
length fails with the unknown-length error; type bytes map `0x5A` to UVR61-3,
`0x76` to UVR1611 and anything else to Unknown. -/
theorem device_probe_header (data : List Nat) :
    (data.length = 13 → readDeviceInfoHeader data
        = Except.ok ⟨"1DL", uvrTypeToString (data.getD 5 0), none⟩)
    ∧ (data.length = 14 → readDeviceInfoHeader data
        = Except.ok ⟨"2DL", uvrTypeToString (data.getD 5 0),
            some (uvrTypeToString (data.getD 6 0))⟩)
    ∧ (data.length = 21 → readDeviceInfoHeader data = Except.ok ⟨"CAN", "UVR1611", none⟩)
    ∧ (data.length ≠ 13 → data.length ≠ 14 → data.length ≠ 21 →
        readDeviceInfoHeader data
          = Except.error ("Unknown data length: " ++ toString data.length))
    ∧ uvrTypeToString 0x5A = "UVR61-3"
    ∧ uvrTypeToString 0x76 = "UVR1611"
    ∧ (∀ t, t ≠ 0x5A → t ≠ 0x76 → uvrTypeToString t = "Unknown") := by
  refine ⟨fun h => ?_, fun h => ?_, fun h => ?_, fun h13 h14 h21 => ?_,
    by simp [uvrTypeToString], by simp [uvrTypeToString], fun t h1 h2 => ?_⟩
  · simp [readDeviceInfoHeader, h]
  · simp [readDeviceInfoHeader, h]
  · simp [readDeviceInfoHeader, h, uvrTypeToString]
  · simp [readDeviceInfoHeader, h13, h14, h21]
  · simp [uvrTypeToString, h1, h2]

/-- Witness for C4: a 13-byte header whose offset-5 byte is `0x5A` decodes to
1DL / UVR61-3. -/
theorem device_probe_header_instance :
    readDeviceInfoHeader (List.replicate 13 0x5A) = Except.ok ⟨"1DL", "UVR61-3", none⟩ := by
  have := (device_probe_header (List.replicate 13 0x5A)).1 (by decide)
  simpa [uvrTypeToString] using this

-- ### C8: the poll orchestrator state machine (`startPolling`, main.js lines 54-142)

/-- Abstract outcome of the externally observable operations of one tick:
`probeSuccess` is the `success` flag `readSystemConfiguration` resolves with,
`fetchResult` the value `fetchStateValuesFromDevice` resolves with (`none`
models the swallowed-error `undefined` result, which crashes the tick at
`Object.entries` after the connection-true publish). -/
structure TickInput where
  probeSuccess : Bool
  fetchResult : Option UvrRecord

/-- Embeds one firing of the `setInterval` callback of `startPolling`
(main.js lines 57-141): when uninitialized, publish the probe outcome as the
connection status and become initialized exactly on probe success; when (now)
initialized, fetch — a successful fetch publishes connection true, a failed
fetch publishes true and then false from the catch block.  Returns the new
initialized flag together with the `info.connection` values published during
the tick, in order. -/
def tick (initialized : Bool) (inp : TickInput) : Bool × List Bool :=
  let (init1, conn1) :=
    if ¬ initialized then (inp.probeSuccess, [inp.probeSuccess])
    else (initialized, [])
  if init1 then
    match inp.fetchResult with
    | some _ => (init1, conn1 ++ [true])
    | none => (init1, conn1 ++ [true, false])
  else (init1, conn1)

/-- The initialized flag after a sequence of ticks. -/
def runTicks (initialized : Bool) (inps : List TickInput) : Bool :=
  inps.foldl (fun s inp => (tick s inp).1) initialized

theorem tick_fst_of_true (inp : TickInput) : (tick true inp).1 = true := by
  rcases hf : inp.fetchResult with _ | v <;> simp [tick, hf]

theorem runTicks_true (inps : List TickInput) : runTicks true inps = true := by
  induction inps with
  | nil => rfl
  | cons i t ih =>
    show List.foldl _ (tick true i).1 t = true
    rw [tick_fst_of_true i]
    exact ih

/-- C8: a tick whose poll fetch fails leaves the machine Initialized and ends
publishing connection status false; a tick whose probe fails leaves it
Uninitialized and publishes false; and Initialized is absorbing — no sequence
of ticks ever takes the initialized flag from true back to false. -/
theorem poll_lifecycle (inp : TickInput) (inps : List TickInput) :
    (inp.fetchResult = none → tick true inp = (true, [true, false]))
    ∧ (inp.probeSuccess = false → tick false inp = (false, [false]))
    ∧ (tick true inp).1 = true
    ∧ runTicks true inps = true := by
  refine ⟨fun h => ?_, fun h => ?_, tick_fst_of_true inp, runTicks_true inps⟩
  · simp [tick, h]
  · simp [tick, h]

/-- Witness for C8: a fetch-failure tick from the initialized state and a
probe-failure tick from the uninitialized state, at concrete inputs. -/
theorem poll_lifecycle_instance :
    tick true ⟨true, none⟩ = (true, [true, false])
    ∧ tick false ⟨false, none⟩ = (false, [false]) :=
  ⟨(poll_lifecycle ⟨true, none⟩ []).1 rfl,
   (poll_lifecycle ⟨false, none⟩ []).2.1 rfl⟩

end Uvr
